import Mathlib

/-!
A shallow embedding of the `sni` (Solana Network Indexer) crate:
`storage.rs`, `config.rs`, `network.rs`, `indexer.rs`, `api.rs`.

SQLite stores 64-bit signed integers; the Rust code binds `u64` values
with `as i64` casts, so the embedding models each table column of SQL
type INTEGER as `Int` holding the two's-complement reinterpretation of
the bound `u64`, and models each table as an association list of rows
keyed by its primary-key column (INSERT OR REPLACE deletes the
conflicting row and inserts the new one).
-/

/-- The Rust `n as i64` cast applied to a `u64` value `n < 2^64`:
two's-complement reinterpretation. -/
def u64_as_i64 (n : Nat) : Int :=
  if n < 2 ^ 63 then (n : Int) else (n : Int) - 2 ^ 64

/-- The Rust `s as u64` cast applied to an `i64` value:
two's-complement reinterpretation (Euclidean remainder is nonnegative). -/
def i64_as_u64 (i : Int) : Nat :=
  (i % 2 ^ 64).toNat

/-- `IndexedData` from `storage.rs`: the sum type of indexable records.
`u64`/`usize` fields are `Nat`, `i64` fields are `Int`, the byte payload
is a list of byte values. -/
inductive IndexedData where
  | Block (slot : Nat) (parent_slot : Nat) (height : Nat) (timestamp : Int)
      (blockhash : String) (transactions_count : Nat)
  | Transaction (signature : String) (slot : Nat) (timestamp : Int)
      (success : Bool) (transaction_data : List Nat)
  | Account (pubkey : String) (owner : String) (lamports : Nat) (slot : Nat)
      (executable : Bool) (rent_epoch : Nat) (data_hash : String)
  | Slot (slot : Nat) (parent : Option Nat) (status : String) (timestamp : Int)
deriving DecidableEq, Repr

/-- A row of the `blocks` table (schema in `initialize_schema`):
`slot INTEGER PRIMARY KEY`, all other INTEGER columns hold the `as i64`
image of the bound Rust value. -/
structure BlockRow where
  slot : Int
  parent_slot : Int
  height : Int
  timestamp : Int
  blockhash : String
  transactions_count : Int
deriving DecidableEq, Repr

/-- A row of the `transactions` table: `signature TEXT PRIMARY KEY`. -/
structure TransactionRow where
  signature : String
  slot : Int
  timestamp : Int
  success : Bool
  transaction_data : List Nat
deriving DecidableEq, Repr

/-- A row of the `accounts` table: `pubkey TEXT PRIMARY KEY`. -/
structure AccountRow where
  pubkey : String
  owner : String
  lamports : Int
  slot : Int
  executable : Bool
  rent_epoch : Int
  data_hash : String
deriving DecidableEq, Repr

/-- A row of the `slots` table: `slot INTEGER PRIMARY KEY`,
`parent INTEGER` nullable. -/
structure SlotRow where
  slot : Int
  parent : Option Int
  status : String
  timestamp : Int
deriving DecidableEq, Repr

/-- The persistent state behind the SQLite pool: the four tables created
by `StorageManager::initialize_schema`. Each list holds the rows of one
table; primary-key uniqueness is maintained by the INSERT OR REPLACE
operations below. -/
structure DbState where
  blocks : List BlockRow
  transactions : List TransactionRow
  accounts : List AccountRow
  slots : List SlotRow
deriving DecidableEq, Repr

/-- The freshly created database: all four tables empty. -/
def emptyDb : DbState := ⟨[], [], [], []⟩

/-- SQLite `INSERT OR REPLACE` into `blocks`: the existing row with the
same primary key (if any) is deleted and the new row inserted. -/
def insertOrReplaceBlock (t : List BlockRow) (r : BlockRow) : List BlockRow :=
  r :: t.filter (fun row => row.slot != r.slot)

/-- SQLite `INSERT OR REPLACE` into `transactions`, keyed by `signature`. -/
def insertOrReplaceTransaction (t : List TransactionRow) (r : TransactionRow) :
    List TransactionRow :=
  r :: t.filter (fun row => row.signature != r.signature)

/-- SQLite `INSERT OR REPLACE` into `accounts`, keyed by `pubkey`. -/
def insertOrReplaceAccount (t : List AccountRow) (r : AccountRow) : List AccountRow :=
  r :: t.filter (fun row => row.pubkey != r.pubkey)

/-- SQLite `INSERT OR REPLACE` into `slots`, keyed by `slot`. -/
def insertOrReplaceSlot (t : List SlotRow) (r : SlotRow) : List SlotRow :=
  r :: t.filter (fun row => row.slot != r.slot)

/-- `StorageManager::store`: dispatches on the `IndexedData` variant and
performs the corresponding INSERT OR REPLACE, binding every `u64`/`usize`
field with an `as i64` cast exactly as the Rust code does. -/
def StorageManager.store (db : DbState) (data : IndexedData) : DbState :=
  match data with
  | .Block slot parent_slot height timestamp blockhash transactions_count =>
      let row : BlockRow :=
        ⟨u64_as_i64 slot, u64_as_i64 parent_slot, u64_as_i64 height,
         timestamp, blockhash, u64_as_i64 transactions_count⟩
      { db with blocks := insertOrReplaceBlock db.blocks row }
  | .Transaction signature slot timestamp success transaction_data =>
      let row : TransactionRow :=
        ⟨signature, u64_as_i64 slot, timestamp, success, transaction_data⟩
      { db with transactions := insertOrReplaceTransaction db.transactions row }
  | .Account pubkey owner lamports slot executable rent_epoch data_hash =>
      let row : AccountRow :=
        ⟨pubkey, owner, u64_as_i64 lamports, u64_as_i64 slot, executable,
         u64_as_i64 rent_epoch, data_hash⟩
      { db with accounts := insertOrReplaceAccount db.accounts row }
  | .Slot slot parent status timestamp =>
      let row : SlotRow :=
        ⟨u64_as_i64 slot, parent.map u64_as_i64, status, timestamp⟩
      { db with slots := insertOrReplaceSlot db.slots row }

/-- SQL `MAX` over an INTEGER column: NULL (`none`) on an empty table,
otherwise the signed maximum of the stored values. -/
def sqlMax : List Int → Option Int
  | [] => none
  | x :: xs =>
    match sqlMax xs with
    | none => some x
    | some m => some (max x m)

/-- `StorageManager::get_latest_slot`: `SELECT MAX(slot) FROM blocks`,
then the `i64` result is cast back with `as u64`. -/
def StorageManager.get_latest_slot (db : DbState) : Option Nat :=
  (sqlMax (db.blocks.map (fun r => r.slot))).map i64_as_u64

/-- `StorageManager::get_block_count`: `SELECT COUNT(*) FROM blocks`. -/
def StorageManager.get_block_count (db : DbState) : Nat :=
  db.blocks.length

/-- `StorageManager::get_transaction_count`: `SELECT COUNT(*) FROM transactions`. -/
def StorageManager.get_transaction_count (db : DbState) : Nat :=
  db.transactions.length

/-- `str::starts_with` from `StorageManager::new`'s check on
`config.database_url`. -/
def startsWithSqlite (url : String) : Bool :=
  ("sqlite:".data).isPrefixOf url.data

/-- What `StorageManager::new` did: its result, how many pool connections
it opened, and how many times it ran schema initialization. -/
structure StorageNewTrace where
  result : Except String Unit
  connectionsOpened : Nat
  schemaInitRuns : Nat
deriving Repr

/-- `StorageManager::new`: if `database_url` does not start with
`"sqlite:"` it returns the error string before connecting; otherwise it
connects and runs `initialize_schema`, each of which may fail (the
environment outcomes are the `connectOk`/`schemaOk` parameters). -/
def StorageManager.new (databaseUrl : String) (connectOk schemaOk : Bool) :
    StorageNewTrace :=
  if startsWithSqlite databaseUrl then
    if connectOk then
      if schemaOk then ⟨.ok (), 1, 1⟩
      else ⟨.error "schema initialization failed", 1, 1⟩
    else ⟨.error "connection failed", 1, 0⟩
  else
    ⟨.error "Only SQLite is supported in this basic implementation", 0, 0⟩

/-- `NetworkConfig` from `config.rs`. -/
structure NetworkConfig where
  rpc_url : String
  websocket_url : String
  commitment : String
  auto_discover_validators : Bool
  max_validator_connections : Nat
deriving DecidableEq, Repr

/-- `StorageConfig` from `config.rs`. -/
structure StorageConfig where
  database_url : String
  enable_compression : Bool
  batch_size : Nat
  flush_interval_ms : Nat
deriving DecidableEq, Repr

/-- `ApiConfig` from `config.rs`. -/
structure ApiConfig where
  host : String
  port : Nat
  enable_graphql : Bool
  enable_websockets : Bool
  cors_origins : List String
deriving DecidableEq, Repr

/-- `IndexingConfig` from `config.rs`. -/
structure IndexingConfig where
  index_accounts : Bool
  index_transactions : Bool
  index_blocks : Bool
  track_validators : Bool
  track_network_health : Bool
  program_filters : List String
deriving DecidableEq, Repr

/-- `SniConfig` from `config.rs`. -/
structure SniConfig where
  network : NetworkConfig
  storage : StorageConfig
  api : ApiConfig
  indexing : IndexingConfig
deriving DecidableEq, Repr

/-- `impl Default for SniConfig` from `config.rs`, field for field. -/
def SniConfig.default : SniConfig :=
  { network :=
      { rpc_url := "https://api.mainnet-beta.solana.com"
        websocket_url := "wss://api.mainnet-beta.solana.com"
        commitment := "confirmed"
        auto_discover_validators := true
        max_validator_connections := 5 }
    storage :=
      { database_url := "sqlite:sni.db"
        enable_compression := true
        batch_size := 1000
        flush_interval_ms := 5000 }
    api :=
      { host := "0.0.0.0"
        port := 8080
        enable_graphql := true
        enable_websockets := true
        cors_origins := ["*"] }
    indexing :=
      { index_accounts := true
        index_transactions := true
        index_blocks := true
        track_validators := true
        track_network_health := true
        program_filters := [] } }

/-- `SniConfig::load`: if the path does not exist, return the default
configuration; otherwise read the file and parse it as TOML. The
filesystem and the TOML parsing are external, so the path-existence test,
the read outcome and the parse outcome are parameters. -/
def SniConfig.load (pathExists : Bool) (readResult : Except String String)
    (parseToml : String → Except String SniConfig) : Except String SniConfig :=
  if !pathExists then
    .ok SniConfig.default
  else
    match readResult with
    | .error e => .error e
    | .ok content => parseToml content

/-- `NetworkStats` from `network.rs`: the five atomic gauges, snapshotted
as plain values. -/
structure NetworkStats where
  slot_height : Nat
  epoch : Nat
  transaction_count : Nat
  average_slot_time : Nat
  active_validators : Nat
deriving DecidableEq, Repr

/-- The mutable state of `NetworkMonitor`: the gauges and the
`last_health_check` cell (an `Option` of a time value). -/
structure MonitorState where
  network_stats : NetworkStats
  last_health_check : Option Nat
deriving DecidableEq, Repr

/-- The outcomes of the three RPC queries made by one
`NetworkMonitor::check_health` call; each can fail with an error string. -/
structure RpcResults where
  getSlot : Except String Nat
  getEpochInfo : Except String Nat
  getTransactionCount : Except String Nat

/-- `NetworkMonitor::check_health`: queries slot, epoch info and
transaction count in that order, storing each gauge as soon as its query
succeeds; a query error propagates immediately (the `?` operator), and
`last_health_check` is written only after all three queries succeed.
`now` is the wall-clock instant taken at the final write. -/
def NetworkMonitor.check_health (st : MonitorState) (rpc : RpcResults)
    (now : Nat) : Except String Unit × MonitorState :=
  match rpc.getSlot with
  | .error e => (.error e, st)
  | .ok slot =>
    let st1 := { st with network_stats := { st.network_stats with slot_height := slot } }
    match rpc.getEpochInfo with
    | .error e => (.error e, st1)
    | .ok epoch =>
      let st2 := { st1 with network_stats := { st1.network_stats with epoch := epoch } }
      match rpc.getTransactionCount with
      | .error e => (.error e, st2)
      | .ok tc =>
        let st3 :=
          { st2 with network_stats := { st2.network_stats with transaction_count := tc } }
        (.ok (), { st3 with last_health_check := some now })

/-- `ValidatorInfo` from `network.rs`; `Pubkey` values are modelled as
strings. -/
structure ValidatorInfo where
  vote_account : String
  identity : String
  commission : Nat
  last_vote : Nat
  activated_stake : Nat
  delinquent : Bool
deriving DecidableEq, Repr

/-- `ValidatorTracker` from `network.rs`: the concurrent
pubkey-to-ValidatorInfo map (as an association list) and the
`last_update` cell. -/
structure ValidatorTracker where
  validators : List (String × ValidatorInfo)
  last_update : Option Nat
deriving DecidableEq, Repr

/-- `ValidatorTracker::new`: empty map, no recorded update. -/
def ValidatorTracker.new : ValidatorTracker :=
  ⟨[], none⟩

/-- `ValidatorTracker::update_validator_info`: logs, writes `last_update`,
and returns `Ok(())`; it touches nothing else. -/
def ValidatorTracker.update_validator_info (vt : ValidatorTracker) (now : Nat) :
    Except String Unit × ValidatorTracker :=
  (.ok (), { vt with last_update := some now })

/-- `ValidatorTracker::get_validator_count`: size of the map. -/
def ValidatorTracker.get_validator_count (vt : ValidatorTracker) : Nat :=
  vt.validators.length

/-- `ValidatorTracker::get_validator`: lookup by pubkey. -/
def ValidatorTracker.get_validator (vt : ValidatorTracker) (pubkey : String) :
    Option ValidatorInfo :=
  (vt.validators.find? (fun p => p.1 == pubkey)).map (fun p => p.2)

/-- `TideData` from `indexer.rs`: a raw ingestion event. -/
structure TideData where
  slot : Nat
  block_hash : String
  timestamp : Int
deriving DecidableEq, Repr

/-- The state touched by `SolanaIndexer::process_tide_data`: the storage
behind `self.storage` and the `IndexerStats` counters. -/
structure IndexerRunState where
  db : DbState
  blocks_processed : Nat
  transactions_processed : Nat
  accounts_updated : Nat
  processing_latency_ms : Nat
deriving DecidableEq, Repr

/-- The normalization step inside `SolanaIndexer::process_tide_data`:
the single `IndexedData::Block` built from a `TideData` event, with
`parent_slot`, `height` and `transactions_count` set to the literal
placeholder `0`. -/
def normalizeTideData (data : TideData) : IndexedData :=
  .Block data.slot 0 0 data.timestamp data.block_hash 0

/-- `SolanaIndexer::process_tide_data`: stores the normalized record and
then increments `blocks_processed` by one. -/
def SolanaIndexer.process_tide_data (st : IndexerRunState) (data : TideData) :
    IndexerRunState :=
  { st with
    db := StorageManager.store st.db (normalizeTideData data)
    blocks_processed := st.blocks_processed + 1 }

/-- The lifecycle cells of `SolanaIndexer`: the `started_at` once-cell
(an `Option` of the instant it was set to) and the `running` atomic
flag. -/
structure LifecycleState where
  started_at : Option Nat
  running_flag : Bool
deriving DecidableEq, Repr

/-- `SolanaIndexer::start`. `OnceLock::set` on `started_at` fails when
the cell is already set, in which case `?` returns
`Err("Already started")` before the `running` flag or the loops are
touched. Otherwise `running` is set, and the three tasks are joined with
`tokio::try_join!`: the monitor and stats loops never complete while
`running` stays true, so the join finishes (fail-fast) exactly when the
engine task returns an error, yielding that error; with the engine
returning `Ok` the call does not return within a run that never calls
`stop()`, modelled as `none`. The `Bool` component records whether the
loops were launched by this call. -/
def SolanaIndexer.start (st : LifecycleState) (now : Nat)
    (engineResult : Except String Unit) :
    Option (Except String Unit) × LifecycleState × Bool :=
  match st.started_at with
  | some _ => (some (.error "Already started"), st, false)
  | none =>
    let st1 : LifecycleState := { started_at := some now, running_flag := true }
    match engineResult with
    | .error e => (some (.error e), st1, true)
    | .ok _ => (none, st1, true)

/-- The `while` guard of `SolanaIndexer::run_network_monitor` (and of
`run_stats_reporter`): the loop runs another iteration exactly when the
shared `running` flag reads true. -/
def run_network_monitor_guard (running_flag : Bool) : Bool :=
  running_flag

/-- One iteration of the `SolanaIndexer::run_network_monitor` loop body:
`check_health` and `update_validator_info` are each called and an `Err`
from either is only logged (`if let Err`), never propagated, after which
the loop sleeps until its next fixed interval. The iteration itself
returns `Ok` of the updated states for every possible RPC outcome. -/
def run_network_monitor_iteration (ns : MonitorState) (vt : ValidatorTracker)
    (rpc : RpcResults) (tHealth tUpdate : Nat) :
    Except String (MonitorState × ValidatorTracker) :=
  let healthOutcome := NetworkMonitor.check_health ns rpc tHealth
  let ns1 := healthOutcome.2
  let updateOutcome := ValidatorTracker.update_validator_info vt tUpdate
  let vt1 := updateOutcome.2
  .ok (ns1, vt1)

/-- `HealthResponse` from `api.rs`. -/
structure HealthResponse where
  status : String
  version : String
  uptime_seconds : Nat
  blocks_indexed : Nat
  transactions_indexed : Nat
deriving DecidableEq, Repr

/-- `ApiResponse<T>` from `api.rs`. -/
structure ApiResponse (T : Type) where
  success : Bool
  data : Option T
  error : Option String
deriving DecidableEq, Repr

/-- `ApiServer::get_health_data`: queries the block count and then the
transaction count (each query may fail, per the `blockCountOk` /
`txCountOk` environment outcomes) and builds the `HealthResponse` with
`status = "healthy"`, the crate version, and `uptime_seconds = 0`. -/
def ApiServer.get_health_data (blockCountOk txCountOk : Bool) (db : DbState)
    (version : String) : Except String HealthResponse :=
  if blockCountOk then
    if txCountOk then
      .ok ⟨"healthy", version, 0, StorageManager.get_block_count db,
           StorageManager.get_transaction_count db⟩
    else .error "transaction count query failed"
  else .error "block count query failed"

/-- `ApiServer::handle_health`: wraps `get_health_data` in an
`ApiResponse` — success with the data on `Ok`, failure with the error
string on `Err`. -/
def ApiServer.handle_health (blockCountOk txCountOk : Bool) (db : DbState)
    (version : String) : ApiResponse HealthResponse :=
  match ApiServer.get_health_data blockCountOk txCountOk db version with
  | .ok data => ⟨true, some data, none⟩
  | .error e => ⟨false, none, some e⟩

/-- The spec's description of `latestSlot()`, for comparison with
`StorageManager.get_latest_slot`: "maximum slot present in the Block
table, or absent if empty", with the slots read as the `u64` values that
were stored. -/
def specLatestSlot (db : DbState) : Option Nat :=
  match db.blocks.map (fun r => i64_as_u64 r.slot) with
  | [] => none
  | x :: xs => some (xs.foldl max x)

/-- Helper: re-storing a block with the same slot key wholesale-replaces
the earlier row at that key. -/
theorem insertOrReplaceBlock_same_key (t : List BlockRow) (r1 r2 : BlockRow)
    (hkey : r1.slot = r2.slot) :
    insertOrReplaceBlock (insertOrReplaceBlock t r1) r2 = insertOrReplaceBlock t r2 := by
  simp [insertOrReplaceBlock, List.filter_filter, hkey]

/-- C1: storing a Block at an already-present slot key replaces all
non-key fields wholesale and leaves the row count unchanged; concretely,
storing slot 100 with transactions_count 3 then 5 leaves one row for
slot 100 carrying 5, with `get_block_count` unchanged by the second
store, and storing slots 1, 2, 1 leaves exactly 2 rows. -/
theorem store_block_upsert_idempotent
    (db : DbState) (s ps1 h1 tc1 ps2 h2 tc2 : Nat) (ts1 ts2 : Int)
    (bh1 bh2 : String) :
    (StorageManager.store
        (StorageManager.store db (.Block s ps1 h1 ts1 bh1 tc1))
        (.Block s ps2 h2 ts2 bh2 tc2)
      = StorageManager.store db (.Block s ps2 h2 ts2 bh2 tc2))
    ∧ StorageManager.get_block_count
        (StorageManager.store
          (StorageManager.store db (.Block s ps1 h1 ts1 bh1 tc1))
          (.Block s ps2 h2 ts2 bh2 tc2))
      = StorageManager.get_block_count
          (StorageManager.store db (.Block s ps1 h1 ts1 bh1 tc1))
    ∧ ((StorageManager.store
          (StorageManager.store emptyDb (.Block 100 0 0 7 "h1" 3))
          (.Block 100 0 0 8 "h2" 5)).blocks.filter
            (fun r => r.slot == u64_as_i64 100))
      = [⟨100, 0, 0, 8, "h2", 5⟩]
    ∧ StorageManager.get_block_count
        (StorageManager.store
          (StorageManager.store emptyDb (.Block 100 0 0 7 "h1" 3))
          (.Block 100 0 0 8 "h2" 5))
      = StorageManager.get_block_count
          (StorageManager.store emptyDb (.Block 100 0 0 7 "h1" 3))
    ∧ StorageManager.get_block_count
        (StorageManager.store (StorageManager.store
          (StorageManager.store emptyDb (.Block 1 0 0 0 "a" 0))
          (.Block 2 0 0 0 "b" 0)) (.Block 1 0 0 0 "c" 0)) = 2 := by
  refine ⟨?_, ?_, by decide, by decide, by decide⟩
  · simp [StorageManager.store, insertOrReplaceBlock_same_key]
  · simp [StorageManager.store, StorageManager.get_block_count,
      insertOrReplaceBlock, List.filter_filter]

/-- Helper: `sqlMax` is `none` exactly on the empty column. -/
theorem sqlMax_eq_none_iff (l : List Int) : sqlMax l = none ↔ l = [] := by
  cases l with
  | nil => simp [sqlMax]
  | cons x xs =>
    simp only [sqlMax]
    cases sqlMax xs <;> simp

/-- Helper: a `sqlMax` result is a member of the column and bounds every
entry (in the signed order). -/
theorem sqlMax_spec (l : List Int) (m : Int) (h : sqlMax l = some m) :
    m ∈ l ∧ ∀ x ∈ l, x ≤ m := by
  induction l generalizing m with
  | nil => simp [sqlMax] at h
  | cons x xs ih =>
    cases hxs : sqlMax xs with
    | none =>
      have hnil : xs = [] := (sqlMax_eq_none_iff xs).mp hxs
      subst hnil
      simp [sqlMax] at h
      subst h
      simp
    | some m0 =>
      simp only [sqlMax, hxs, Option.some.injEq] at h
      subst h
      obtain ⟨hmem, hbound⟩ := ih m0 hxs
      constructor
      · rcases max_choice x m0 with hc | hc <;> rw [hc]
        · exact List.mem_cons_self x xs
        · exact List.mem_cons_of_mem x hmem
      · intro y hy
        rcases List.mem_cons.mp hy with rfl | hy
        · exact le_max_left y m0
        · exact le_trans (hbound y hy) (le_max_right x m0)

/-- Helper: `as u64` is the identity on `i64` values in `[0, 2^64)`. -/
theorem i64_as_u64_of_nonneg (a : Int) (h0 : 0 ≤ a) (h1 : a < 2 ^ 64) :
    (i64_as_u64 a : Int) = a := by
  unfold i64_as_u64
  rw [Int.emod_eq_of_lt h0 h1, Int.toNat_of_nonneg h0]

/-- Helper: `as u64` is monotone on nonnegative `i64` values below `2^64`. -/
theorem i64_as_u64_mono (a b : Int) (ha : 0 ≤ a) (hab : a ≤ b)
    (ha64 : a < 2 ^ 64) (hb64 : b < 2 ^ 64) :
    i64_as_u64 a ≤ i64_as_u64 b := by
  unfold i64_as_u64
  rw [Int.emod_eq_of_lt ha ha64, Int.emod_eq_of_lt (le_trans ha hab) hb64]
  exact Int.toNat_le_toNat hab

/-- C2 counterexample: `get_latest_slot` compares slots as signed 64-bit
values, so after storing slots 1 and `2^63` it returns `some 1`, while
the maximum `u64` slot present (per the spec's description,
`specLatestSlot`) is `2^63`. -/
theorem get_latest_slot_signed_wrap_counterexample :
    StorageManager.get_latest_slot
        (StorageManager.store
          (StorageManager.store emptyDb (IndexedData.Block 1 0 0 0 "a" 0))
          (IndexedData.Block (2 ^ 63) 0 0 0 "b" 0))
      = some 1
    ∧ specLatestSlot
        (StorageManager.store
          (StorageManager.store emptyDb (IndexedData.Block 1 0 0 0 "a" 0))
          (IndexedData.Block (2 ^ 63) 0 0 0 "b" 0))
      = some (2 ^ 63)
    ∧ (1 : Nat) ≠ 2 ^ 63 := by
  refine ⟨by decide, by decide, by decide⟩

/-- C2 (amended): `get_latest_slot` returns `none` on an empty Block
table, and whenever every stored slot column value is in `[0, 2^63)`
(i.e. every stored `u64` slot was below `2^63`) it returns the maximum
stored slot: a value attained by some row and bounding every row. -/
theorem get_latest_slot_is_max_below_signed_bound (db : DbState)
    (hslots : ∀ r ∈ db.blocks, 0 ≤ r.slot ∧ r.slot < 2 ^ 63) :
    (db.blocks = [] → StorageManager.get_latest_slot db = none)
    ∧ ∀ m, StorageManager.get_latest_slot db = some m →
        (∃ r ∈ db.blocks, i64_as_u64 r.slot = m)
        ∧ ∀ r ∈ db.blocks, i64_as_u64 r.slot ≤ m := by
  have hpow : (2 : Int) ^ 63 < 2 ^ 64 := by norm_num
  constructor
  · intro h
    simp [StorageManager.get_latest_slot, h, sqlMax]
  · intro m hm
    simp only [StorageManager.get_latest_slot, Option.map_eq_some'] at hm
    obtain ⟨m0, hm0, rfl⟩ := hm
    obtain ⟨hmem, hbound⟩ := sqlMax_spec _ m0 hm0
    obtain ⟨r, hr, hrslot⟩ := List.mem_map.mp hmem
    obtain ⟨hr0, hr63⟩ := hslots r hr
    constructor
    · exact ⟨r, hr, by rw [hrslot]⟩
    · intro q hq
      obtain ⟨hq0, hq63⟩ := hslots q hq
      have hqm0 : q.slot ≤ m0 := hbound q.slot (List.mem_map.mpr ⟨q, hq, rfl⟩)
      have hm064 : m0 < 2 ^ 64 := by
        rw [← hrslot] at *
        exact lt_trans hr63 hpow
      exact i64_as_u64_mono q.slot m0 hq0 hqm0 (lt_trans hq63 hpow) hm064

/-- C2 witness: on the table holding slots 3 and 5 (both below `2^63`),
the amended theorem yields that `get_latest_slot`'s answer 5 is attained
and maximal. -/
theorem get_latest_slot_is_max_witness :
    (∃ r ∈ (StorageManager.store
        (StorageManager.store emptyDb (IndexedData.Block 3 0 0 0 "a" 0))
        (IndexedData.Block 5 0 0 0 "b" 0)).blocks, i64_as_u64 r.slot = 5)
    ∧ ∀ r ∈ (StorageManager.store
        (StorageManager.store emptyDb (IndexedData.Block 3 0 0 0 "a" 0))
        (IndexedData.Block 5 0 0 0 "b" 0)).blocks, i64_as_u64 r.slot ≤ 5 :=
  (get_latest_slot_is_max_below_signed_bound
    (StorageManager.store
      (StorageManager.store emptyDb (IndexedData.Block 3 0 0 0 "a" 0))
      (IndexedData.Block 5 0 0 0 "b" 0)) (by decide)).2 5 (by decide)

/-- C3 counterexample: when the engine task fails, `start()` does return
that error (fail-fast), but the shared cancellation flag is never
cleared on this path — it still reads true afterwards, so a subsequent
check of the flag by the monitor or stats loop would continue the loop,
not stop it (the loops are in fact dropped by the join, not stopped via
the flag). -/
theorem start_error_path_flag_still_set :
    (SolanaIndexer.start ⟨none, false⟩ 0 (.error "engine failed")).1
      = some (.error "engine failed")
    ∧ ((SolanaIndexer.start ⟨none, false⟩ 0 (.error "engine failed")).2.1).running_flag
      = true
    ∧ run_network_monitor_guard
        ((SolanaIndexer.start ⟨none, false⟩ 0 (.error "engine failed")).2.1).running_flag
      = true := by
  exact ⟨rfl, rfl, rfl⟩

/-- C3 (amended): `start()` joins the three tasks fail-fast — an engine
error is returned as `start()`'s own error; the monitor loop body can
never return an error (both fallible calls are logged-and-ignored), so
the engine task is the only error source; and on the error path the
shared `running` flag remains true, so the other loops are stopped by
the join dropping them rather than by observing the flag. -/
theorem start_fail_fast_propagation (t : Bool) (now : Nat) (e : String) :
    SolanaIndexer.start ⟨none, t⟩ now (.error e)
      = (some (.error e), ⟨some now, true⟩, true)
    ∧ (∀ ns vt rpc t1 t2,
        (run_network_monitor_iteration ns vt rpc t1 t2).isOk = true)
    ∧ run_network_monitor_guard
        ((SolanaIndexer.start ⟨none, t⟩ now (.error e)).2.1).running_flag
      = true := by
  exact ⟨rfl, fun _ _ _ _ _ => rfl, rfl⟩

/-- C6 counterexample: the second `start()` call on the same instance
fails with the message "Already started" (capital A), not the
spec-quoted "already started". -/
theorem start_second_call_message :
    (SolanaIndexer.start
        ((SolanaIndexer.start ⟨none, false⟩ 0 (.ok ())).2.1) 1 (.ok ())).1
      = some (.error "Already started")
    ∧ "Already started" ≠ "already started" := by
  exact ⟨rfl, by decide⟩

/-- C6 (amended): the first `start()` call performs the one-time
transition — it sets `started_at`, raises the `running` flag and
launches the loops — while any call on an instance whose `started_at`
cell is already set returns the error "Already started" without touching
the state or launching the loops; and after any call `started_at` is
set, so every later call takes the error branch. -/
theorem start_marks_started_at_most_once (st : LifecycleState) (t : Bool)
    (prev now : Nat) (engineResult : Except String Unit) :
    SolanaIndexer.start ⟨some prev, t⟩ now engineResult
      = (some (.error "Already started"), ⟨some prev, t⟩, false)
    ∧ ((SolanaIndexer.start ⟨none, t⟩ now engineResult).2.1).started_at = some now
    ∧ ((SolanaIndexer.start ⟨none, t⟩ now engineResult).2.1).running_flag = true
    ∧ (SolanaIndexer.start ⟨none, t⟩ now engineResult).2.2 = true
    ∧ ((SolanaIndexer.start st now engineResult).2.1).started_at.isSome = true := by
  refine ⟨rfl, ?_, ?_, ?_, ?_⟩
  · cases engineResult <;> rfl
  · cases engineResult <;> rfl
  · cases engineResult <;> rfl
  · cases hst : st.started_at with
    | some p =>
      cases st
      simp_all [SolanaIndexer.start]
    | none =>
      cases st
      cases engineResult <;> simp_all [SolanaIndexer.start]

/-- Helper: the `as i64` cast of the literal placeholder 0 is 0. -/
theorem u64_as_i64_zero : u64_as_i64 0 = 0 := by decide

/-- C7: `process_tide_data` normalizes a raw event into exactly one
Block record taking slot, blockhash and timestamp from the event and the
literal zero sentinel for `parent_slot`, `height` and
`transactions_count`; it stores that record (the row at the event's slot
key afterwards is exactly that record, and no other table changes) and
increments `blocks_processed` by exactly 1 (no other counter moves). -/
theorem process_tide_data_one_block_record (st : IndexerRunState) (d : TideData) :
    normalizeTideData d = IndexedData.Block d.slot 0 0 d.timestamp d.block_hash 0
    ∧ ((SolanaIndexer.process_tide_data st d).db.blocks.filter
        (fun r => r.slot == u64_as_i64 d.slot))
      = [⟨u64_as_i64 d.slot, 0, 0, d.timestamp, d.block_hash, 0⟩]
    ∧ (SolanaIndexer.process_tide_data st d).blocks_processed
      = st.blocks_processed + 1
    ∧ (SolanaIndexer.process_tide_data st d).db.transactions = st.db.transactions
    ∧ (SolanaIndexer.process_tide_data st d).db.accounts = st.db.accounts
    ∧ (SolanaIndexer.process_tide_data st d).db.slots = st.db.slots
    ∧ (SolanaIndexer.process_tide_data st d).transactions_processed
      = st.transactions_processed
    ∧ (SolanaIndexer.process_tide_data st d).accounts_updated = st.accounts_updated := by
  refine ⟨rfl, ?_, rfl, rfl, rfl, rfl, rfl, rfl⟩
  simp [SolanaIndexer.process_tide_data, StorageManager.store, normalizeTideData,
    insertOrReplaceBlock, List.filter_filter, u64_as_i64_zero]

/-- C4: when both count queries succeed, `handle_health` returns
success = true with `blocks_indexed` equal to `get_block_count` and
`transactions_indexed` equal to `get_transaction_count` at response
time; concretely, after storing 5 blocks with distinct slots and 3
transactions with distinct signatures the response carries 5 and 3. -/
theorem handle_health_reports_store_counts (db : DbState) (version : String) :
    ApiServer.handle_health true true db version
      = ⟨true,
         some ⟨"healthy", version, 0, StorageManager.get_block_count db,
               StorageManager.get_transaction_count db⟩,
         none⟩
    ∧ ApiServer.handle_health true true
        (StorageManager.store (StorageManager.store (StorageManager.store
          (StorageManager.store (StorageManager.store (StorageManager.store
            (StorageManager.store (StorageManager.store emptyDb
              (IndexedData.Block 1 0 0 0 "b1" 0))
              (IndexedData.Block 2 0 0 0 "b2" 0))
              (IndexedData.Block 3 0 0 0 "b3" 0))
              (IndexedData.Block 4 0 0 0 "b4" 0))
              (IndexedData.Block 5 0 0 0 "b5" 0))
              (IndexedData.Transaction "s1" 1 0 true []))
              (IndexedData.Transaction "s2" 1 0 true []))
              (IndexedData.Transaction "s3" 2 0 false [7]))
        "0.1.0"
      = ⟨true, some ⟨"healthy", "0.1.0", 0, 5, 3⟩, none⟩ := by
  exact ⟨rfl, by decide⟩

/-- C5: loading configuration from a path that does not exist returns
the fixed default configuration without an error; that default uses a
SQLite database_url at the local path `sni.db`, batch_size 1000 and
flush_interval_ms 5000. -/
theorem load_missing_path_returns_defaults (readResult : Except String String)
    (parseToml : String → Except String SniConfig) :
    SniConfig.load false readResult parseToml = .ok SniConfig.default
    ∧ SniConfig.default.storage.database_url = "sqlite:sni.db"
    ∧ startsWithSqlite SniConfig.default.storage.database_url = true
    ∧ SniConfig.default.storage.batch_size = 1000
    ∧ SniConfig.default.storage.flush_interval_ms = 5000 := by
  exact ⟨rfl, rfl, by decide, rfl, rfl⟩

/-- C8: the monitor loop contains every RPC query error — an iteration
of `run_network_monitor` succeeds for every possible RPC outcome, so no
error reaches the pipeline and the loop proceeds to its next interval —
and `check_health` writes `last_health_check` exactly when the check
succeeds, leaving it unchanged on a failed check; the check succeeds
exactly when all three RPC queries do. -/
theorem monitor_contains_rpc_errors (st : MonitorState) (vt : ValidatorTracker)
    (rpc : RpcResults) (now tUpdate : Nat) :
    (run_network_monitor_iteration st vt rpc now tUpdate).isOk = true
    ∧ (NetworkMonitor.check_health st rpc now).2.last_health_check
      = (if (NetworkMonitor.check_health st rpc now).1.isOk
          then some now else st.last_health_check)
    ∧ (NetworkMonitor.check_health st rpc now).1.isOk
      = (rpc.getSlot.isOk && (rpc.getEpochInfo.isOk && rpc.getTransactionCount.isOk)) := by
  obtain ⟨s, e, tc⟩ := rpc
  refine ⟨rfl, ?_, ?_⟩ <;>
    cases s <;> cases e <;> cases tc <;>
      simp [NetworkMonitor.check_health, Except.isOk, Except.toBool]

/-- Helper: any sequence of `update_validator_info` calls leaves the
validator map exactly as it started. -/
theorem foldl_update_validator_info_validators (times : List Nat)
    (vt : ValidatorTracker) :
    (times.foldl (fun v t => (ValidatorTracker.update_validator_info v t).2)
      vt).validators = vt.validators := by
  induction times generalizing vt with
  | nil => rfl
  | cons t ts ih =>
    rw [List.foldl_cons, ih]
    rfl

/-- C9: `update_validator_info` only records the refresh time: it
returns `Ok` and leaves the validator map untouched, so after any
sequence of refreshes from construction the map is still empty,
`get_validator_count` is 0 and `get_validator` is `none` for every
identity. -/
theorem validator_tracker_refresh_no_op (times : List Nat) (pubkey : String)
    (vt : ValidatorTracker) (now : Nat) :
    ((ValidatorTracker.update_validator_info vt now).2).validators = vt.validators
    ∧ (ValidatorTracker.update_validator_info vt now).1 = .ok ()
    ∧ (times.foldl (fun v t => (ValidatorTracker.update_validator_info v t).2)
        ValidatorTracker.new).validators = []
    ∧ ValidatorTracker.get_validator_count
        (times.foldl (fun v t => (ValidatorTracker.update_validator_info v t).2)
          ValidatorTracker.new) = 0
    ∧ ValidatorTracker.get_validator
        (times.foldl (fun v t => (ValidatorTracker.update_validator_info v t).2)
          ValidatorTracker.new) pubkey = none := by
  refine ⟨rfl, rfl, ?_, ?_, ?_⟩
  · exact foldl_update_validator_info_validators times ValidatorTracker.new
  · unfold ValidatorTracker.get_validator_count
    rw [foldl_update_validator_info_validators]
    rfl
  · unfold ValidatorTracker.get_validator
    rw [foldl_update_validator_info_validators]
    rfl

/-- C10: for every storage configuration whose database_url does not
start with "sqlite:", `StorageManager::new` returns the error "Only
SQLite is supported in this basic implementation" with no connection
opened and no schema created — in particular construction never
succeeds for such a URL. -/
theorem storage_new_rejects_non_sqlite (url : String) (connectOk schemaOk : Bool)
    (h : startsWithSqlite url = false) :
    (StorageManager.new url connectOk schemaOk).result
      = .error "Only SQLite is supported in this basic implementation"
    ∧ (StorageManager.new url connectOk schemaOk).connectionsOpened = 0
    ∧ (StorageManager.new url connectOk schemaOk).schemaInitRuns = 0
    ∧ (StorageManager.new url connectOk schemaOk).result.isOk = false := by
  simp [StorageManager.new, h, Except.isOk, Except.toBool]

/-- C10 witness: the rejection at the concrete URL
"postgres://localhost/sni". -/
theorem storage_new_rejects_non_sqlite_witness :
    (StorageManager.new "postgres://localhost/sni" true true).result
      = .error "Only SQLite is supported in this basic implementation"
    ∧ (StorageManager.new "postgres://localhost/sni" true true).connectionsOpened = 0
    ∧ (StorageManager.new "postgres://localhost/sni" true true).schemaInitRuns = 0
    ∧ (StorageManager.new "postgres://localhost/sni" true true).result.isOk = false :=
  storage_new_rejects_non_sqlite "postgres://localhost/sni" true true (by decide)
